import Mathlib

/-!
Shallow embedding of the `emqx-auth` load-test harness
(`src/test/load_test.py`) and the VerneMQ authorization webhook
(`src/vernemq/webhook.py`).

Timestamps are modelled as integers (the Python code uses `time.time()`
floats; no claim depends on sub-unit rounding).  Asynchronous callbacks
are modelled as pure state-transition functions on the session record,
and each blocking wait is parameterised by the callback events that the
background network thread delivers during the wait window.
-/

namespace EmqxAuth

/-- One entry of `MQTTClient.received_messages`
(`load_test.py:163-167`). -/
structure ReceivedMessage where
  topic : String
  payload : String
  timestamp : Int
deriving Repr, DecidableEq

/-- The mutable state of `MQTTClient` (`load_test.py:85-111`): connection
and subscription flags, the received-message buffer, the four phase
timestamps, and the connect result code / error text. -/
structure MQTTClient where
  connected : Bool
  subscribed : Bool
  message_received : Bool
  received_messages : List ReceivedMessage
  connection_time : Option Int
  subscribe_time : Option Int
  publish_time : Option Int
  receive_time : Option Int
  connection_result_code : Option Nat
  connection_error : Option String
deriving Repr, DecidableEq

/-- State of a freshly constructed `MQTTClient` (`load_test.py:96-105`). -/
def MQTTClient.init : MQTTClient :=
  { connected := false
  , subscribed := false
  , message_received := false
  , received_messages := []
  , connection_time := none
  , subscribe_time := none
  , publish_time := none
  , receive_time := none
  , connection_result_code := none
  , connection_error := none }

/-- The literal `error_messages` dict of `_on_connect`
(`load_test.py:125-152`): the fixed human-readable category labels,
keyed by MQTT connect result code. -/
def error_table : List (Nat × String) :=
  [ (1, "Connection refused - incorrect protocol version")
  , (2, "Connection refused - invalid client identifier")
  , (3, "Connection refused - server unavailable")
  , (4, "Connection refused - bad username or password")
  , (5, "Connection refused - not authorized")
  , (128, "Connection refused - unspecified error")
  , (129, "Connection refused - malformed packet")
  , (130, "Connection refused - protocol error")
  , (131, "Connection refused - implementation specific error")
  , (132, "Connection refused - unsupported protocol version")
  , (133, "Connection refused - client identifier not valid")
  , (134, "Connection refused - bad username or password")
  , (135, "Connection refused - not authorized")
  , (136, "Connection refused - server unavailable")
  , (137, "Connection refused - server busy")
  , (138, "Connection refused - banned")
  , (140, "Connection refused - bad authentication method")
  , (144, "Connection refused - topic name invalid")
  , (149, "Connection refused - packet too large")
  , (151, "Connection refused - quota exceeded")
  , (153, "Connection refused - payload format invalid")
  , (154, "Connection refused - retain not supported")
  , (155, "Connection refused - QoS not supported")
  , (156, "Connection refused - use another server")
  , (157, "Connection refused - server moved")
  , (159, "Connection refused - connection rate exceeded") ]

/-- The dict lookup `error_messages.get(rc_value)`: the fixed label for
a tabled code, `none` for every code absent from the table (those fall
through to the generic default of `load_test.py:153`). -/
def error_messages (rc : Nat) : Option String :=
  (error_table.find? (fun p => p.1 == rc)).map Prod.snd

/-- The result codes that own a fixed label in the table. -/
def labelledCodes : List Nat := error_table.map Prod.fst

/-- Callback `_on_connect` (`load_test.py:113-153`): records the raw
result code; code 0 marks the session connected and stamps
`connection_time`; any other code marks it not connected and stores the
table label, or the generic message carrying the raw code when the table
has no entry. -/
def MQTTClient.on_connect (c : MQTTClient) (rc : Nat) (now : Int) : MQTTClient :=
  let c := { c with connection_result_code := some rc }
  if rc = 0 then
    { c with connected := true, connection_time := some now }
  else
    { c with connected := false
           , connection_error := some ((error_messages rc).getD
               ("Connection refused - error code " ++ toString rc)) }

/-- Callback `_on_subscribe` (`load_test.py:155-159`): the session
becomes subscribed unless some granted QoS equals the failure sentinel
0x80. -/
def MQTTClient.on_subscribe (c : MQTTClient) (granted_qos : List Nat) (now : Int) :
    MQTTClient :=
  if 128 ∈ granted_qos then c
  else { c with subscribed := true, subscribe_time := some now }

/-- Callback `_on_message` (`load_test.py:161-170`): appends the message
to the buffer unconditionally (no topic filtering); on the first
delivery only, sets `message_received` and stamps `receive_time`. -/
def MQTTClient.on_message (c : MQTTClient) (topic payload : String) (now : Int) :
    MQTTClient :=
  let c := { c with received_messages :=
      c.received_messages ++ [⟨topic, payload, now⟩] }
  if c.message_received then c
  else { c with message_received := true, receive_time := some now }

/-- Callback `_on_publish` (`load_test.py:172-174`): stamps
`publish_time`. -/
def MQTTClient.on_publish (c : MQTTClient) (now : Int) : MQTTClient :=
  { c with publish_time := some now }

/-- A callback event delivered by the paho network thread. -/
inductive CbEvent where
  | conn (rc : Nat) (now : Int)
  | sub (granted_qos : List Nat) (now : Int)
  | msg (topic payload : String) (now : Int)
  | pub (now : Int)
deriving Repr, DecidableEq

/-- Applies one callback event to the session state. -/
def MQTTClient.applyEvent (c : MQTTClient) : CbEvent → MQTTClient
  | .conn rc now => c.on_connect rc now
  | .sub g now => c.on_subscribe g now
  | .msg t p now => c.on_message t p now
  | .pub now => c.on_publish now

/-- Applies a sequence of callback events in delivery order. -/
def MQTTClient.applyEvents (c : MQTTClient) (evts : List CbEvent) : MQTTClient :=
  evts.foldl MQTTClient.applyEvent c

/-- The blocking wait `wait_for_message` (`load_test.py:220-226`): the
poll loop exits as soon as `message_received` is set (or the timeout
elapses), and the call returns the final value of `message_received`.
`arrivals` are the messages the callback thread delivers during the wait
window (empty when nothing arrives before the timeout). -/
def MQTTClient.wait_for_message (c : MQTTClient)
    (arrivals : List (String × String × Int)) : MQTTClient × Bool :=
  let c := arrivals.foldl
    (fun s m => s.on_message m.1 m.2.1 m.2.2) c
  (c, c.message_received)

/-- The send `publish` (`load_test.py:212-218`): refuses (no send) when
the session is not connected; otherwise hands the payload to the
transport and returns whether the transport accepted it locally
(`result.rc == MQTT_ERR_SUCCESS`).  The first component records whether
a send was issued, the second is the Python return value. -/
def MQTTClient.publish (c : MQTTClient) (transport_rc : Nat) : Bool × Bool :=
  if c.connected = false then (false, false)
  else (true, transport_rc == 0)

/-- The JWT claim set built by `create_jwt_token` (`load_test.py:72-79`). -/
structure JwtPayload where
  user_id : Nat
  subject : String
  iss : String
  exp : Int
  provId : String
  device : String
deriving Repr, DecidableEq

/-- A signed token: `jwt.encode(payload, key, "RS256")`
(`load_test.py:81`).  RS256 (PKCS#1 v1.5) signing is deterministic and
the encoding is injective, so a token is modelled as the pair of the
claim set and the signing key. -/
structure JwtToken where
  payload : JwtPayload
  key : String
deriving Repr, DecidableEq

/-- Token issuance `create_jwt_token` (`load_test.py:59-82`): expiry is
one hour past the current time; `device` is the `uuid.uuid4()` value
freshly drawn inside the call (`load_test.py:78`), made an explicit
argument here. -/
def create_jwt_token (subject : String) (now : Int) (device : String)
    (key : String) : JwtToken :=
  { payload :=
      { user_id := 0
      , subject := subject
      , iss := "server"
      , exp := now + 3600
      , provId := ""
      , device := device }
  , key := key }

/-- Python truthiness of an optional timestamp: `None` and `0.0` are
falsy (`if self.mqtt_client.publish_time and ...`,
`load_test.py:482`). -/
def timeTruthy : Option Int → Bool
  | none => false
  | some t => t != 0

/-- The latency computation of `_validate_message_receipt`
(`load_test.py:482-485`): the delta between `publish_time` and
`receive_time` in milliseconds when both are truthy, otherwise
wall-clock time elapsed since the call started. -/
def computeLatency (publish_time receive_time : Option Int)
    (start_time now : Int) : Int :=
  if timeTruthy publish_time && timeTruthy receive_time then
    (receive_time.getD 0 - publish_time.getD 0) * 1000
  else
    (now - start_time) * 1000

/-- One recorded Locust request event (`_fire_event`,
`load_test.py:253-277`): operation name and whether it carried an
exception (`ok = true` means no exception). -/
structure MetricEvent where
  name : String
  ok : Bool
deriving Repr, DecidableEq

/-- The per-user state of `EMQXUser` that the task loop touches
(`load_test.py:244-251`): the message counter, the session state, and
the stream of fired events. -/
structure UserState where
  messages_sent : Nat
  client : MQTTClient
  events : List MetricEvent
deriving Repr, DecidableEq

/-- Environment of one `publish_and_receive` iteration: whether the
transport accepts the publish locally, and the messages the callback
thread delivers during the receipt wait. -/
structure IterEnv where
  transport_rc : Nat
  arrivals : List (String × String × Int)
deriving Repr

/-- Outcome of one invocation of the `publish_and_receive` task. -/
structure TaskOutcome where
  state : UserState
  stopped : Bool
  publishAttempted : Bool
deriving Repr, DecidableEq

/-- The Locust task `publish_and_receive` (`load_test.py:334-367`).
When the counter has reached `MAX_MESSAGES_PER_USER` it raises
`StopUser` before publishing anything and fires no event.  Otherwise
`_publish_message` runs (firing a "4. PUBLISH" event, with an exception
when the send was refused or rejected, `load_test.py:455-469`); on
publish success `_validate_message_receipt` runs (firing a "5. RECEIVE"
event, with an exception on receipt timeout, `load_test.py:471-490`);
on full success the counter is incremented.  Any exception from the two
helpers is caught by the task's `except Exception` handler
(`load_test.py:365-367`), which merely logs and returns, so the user is
not stopped. -/
def publish_and_receive (maxMessages : Nat) (s : UserState) (env : IterEnv) :
    TaskOutcome :=
  if s.messages_sent ≥ maxMessages then
    { state := s, stopped := true, publishAttempted := false }
  else if (s.client.publish env.transport_rc).2 = false then
    { state := { s with events := s.events ++ [⟨"4. PUBLISH", false⟩] }
    , stopped := false
    , publishAttempted := (s.client.publish env.transport_rc).1 }
  else if (s.client.wait_for_message env.arrivals).2 = false then
    { state := { s with
        client := (s.client.wait_for_message env.arrivals).1,
        events := s.events ++
          [⟨"4. PUBLISH", true⟩, ⟨"5. RECEIVE", false⟩] }
    , stopped := false
    , publishAttempted := (s.client.publish env.transport_rc).1 }
  else
    { state := { s with
        client := (s.client.wait_for_message env.arrivals).1,
        messages_sent := s.messages_sent + 1,
        events := s.events ++
          [⟨"4. PUBLISH", true⟩, ⟨"5. RECEIVE", true⟩] }
    , stopped := false
    , publishAttempted := (s.client.publish env.transport_rc).1 }

/-- Runs the task `k` times from a given state under per-iteration
environments drawn from `envOf`, Locust-style: once an invocation
raises `StopUser` the state is frozen. -/
def runTask (maxMessages : Nat) (envOf : Nat → IterEnv) :
    Nat → UserState → UserState
  | 0, s => s
  | k + 1, s =>
      let o := publish_and_receive maxMessages s (envOf 0)
      if o.stopped then s
      else runTask maxMessages (fun i => envOf (i + 1)) k o.state

/-- The user state right after a successful `on_start`
(`load_test.py:279-313`): the session is connected (connect succeeded
at `tConn`) and subscribed (suback at `tSub`), no message published or
received yet, counter zero and no events of interest fired. -/
def startedUser (tConn tSub : Int) : UserState :=
  { messages_sent := 0
  , client := ((MQTTClient.init.on_connect 0 tConn).on_subscribe [0] tSub)
  , events := [] }

/-- Failure pattern of one teardown run: which of the three `on_stop`
steps would raise if executed. -/
structure TeardownFaults where
  disconnectRaises : Bool
  deleteRaises : Bool
  closeRaises : Bool
deriving Repr, DecidableEq

/-- Trace of one `on_stop` run: which steps were executed, and whether
`on_stop` itself raised. -/
structure TeardownTrace where
  disconnectRan : Bool
  deleteRan : Bool
  closeRan : Bool
  raised : Bool
deriving Repr, DecidableEq

/-- The teardown `EMQXUser.on_stop` (`load_test.py:315-332`): the MQTT
disconnect runs unguarded when a client exists; the Redis ACL delete is
wrapped in `try/except Exception: pass`; the Redis close runs
unguarded.  An exception from an unguarded step propagates out of
`on_stop` and skips the remaining steps. -/
def on_stop (hasMqtt hasRedis hasAclKey : Bool) (f : TeardownFaults) :
    TeardownTrace :=
  if hasMqtt ∧ f.disconnectRaises then
    { disconnectRan := true, deleteRan := false, closeRan := false
    , raised := true }
  else
    let deleteRan := hasRedis ∧ hasAclKey
    if hasRedis ∧ f.closeRaises then
      { disconnectRan := hasMqtt, deleteRan := deleteRan, closeRan := true
      , raised := true }
    else
      { disconnectRan := hasMqtt, deleteRan := deleteRan
      , closeRan := hasRedis, raised := false }

/-- A JSON field value as far as the webhook inspects it: `null` or any
other JSON value (opaquely tagged by a string). -/
inductive JVal where
  | null
  | val (s : String)
deriving Repr, DecidableEq

/-- Result of one `AuthHandler.do_POST` run: a 200 response with the
allow body, a 200 response with the denial body, or an uncaught Python
exception (no response written by the handler). -/
inductive PostResult where
  | ok
  | notAllowed
  | keyError (field : String)
deriving Repr, DecidableEq

/-- Looks up a field of the parsed JSON object, as `data[field]` does. -/
def jsonGet (data : List (String × JVal)) (field : String) : Option JVal :=
  (data.find? (fun p => p.1 == field)).map Prod.snd

/-- The webhook handler `AuthHandler.do_POST` (`webhook.py:16-40`).  For
the hook `auth_on_register_m5` it evaluates `data['password']` and then
`data['username']` (`webhook.py:33-34`) — a missing field raises an
uncaught `KeyError` — and denies only when one of the two present
values is JSON `null`; every other request (including every other hook
name) is answered `{"result": "ok"}`. -/
def do_POST (hook : String) (data : List (String × JVal)) : PostResult :=
  if hook = "auth_on_register_m5" then
    match jsonGet data ("password") with
    | none => .keyError ("password")
    | some password =>
      match jsonGet data ("username") with
      | none => .keyError ("username")
      | some username =>
        if username = JVal.null ∨ password = JVal.null then .notAllowed
        else .ok
  else .ok

/-! Helper lemmas shared across the development. -/

theorem on_message_message_received (c : MQTTClient) (t p : String) (now : Int) :
    (c.on_message t p now).message_received = true := by
  by_cases h : c.message_received <;> simp [MQTTClient.on_message, h]

theorem on_message_connected (c : MQTTClient) (t p : String) (now : Int) :
    (c.on_message t p now).connected = c.connected := by
  by_cases h : c.message_received <;> simp [MQTTClient.on_message, h]

theorem on_message_receive_time_of_received (c : MQTTClient) (t p : String)
    (now : Int) (h : c.message_received = true) :
    (c.on_message t p now).receive_time = c.receive_time := by
  simp [MQTTClient.on_message, h]

theorem foldl_on_message_received (ar : List (String × String × Int))
    (c : MQTTClient) :
    (ar.foldl (fun s m => s.on_message m.1 m.2.1 m.2.2) c).message_received
      = (c.message_received || !ar.isEmpty) := by
  induction ar generalizing c with
  | nil => simp
  | cons a rest ih => simp [List.foldl_cons, ih, on_message_message_received]

theorem foldl_on_message_connected (ar : List (String × String × Int))
    (c : MQTTClient) :
    (ar.foldl (fun s m => s.on_message m.1 m.2.1 m.2.2) c).connected
      = c.connected := by
  induction ar generalizing c with
  | nil => rfl
  | cons a rest ih => simp [List.foldl_cons, ih, on_message_connected]

theorem wait_for_message_fst_connected (c : MQTTClient)
    (ar : List (String × String × Int)) :
    ((c.wait_for_message ar).1).connected = c.connected := by
  simp [MQTTClient.wait_for_message, foldl_on_message_connected]

theorem wait_for_message_spec (c : MQTTClient)
    (ar : List (String × String × Int)) :
    (c.wait_for_message ar).2 = (c.message_received || !ar.isEmpty) := by
  simp [MQTTClient.wait_for_message, foldl_on_message_received]

/-- C2 counterexample: a session that has observed exactly one message,
delivered on a topic different from the subscribed one, still makes
`wait_for_message` return `True` — refuting the stated property that a
`True` return requires a message whose topic equals the expected
topic. -/
theorem C2_counterexample :
    (MQTTClient.init.wait_for_message [(("other"), ("x"), (5 : Int))]).2 = true
    ∧ ∀ m ∈ ((MQTTClient.init.wait_for_message
        [(("other"), ("x"), (5 : Int))]).1).received_messages,
        m.topic ≠ "chat/test-topic" := by decide

/-- C2 amended: `wait_for_message` never inspects topics.  It returns
`True` exactly when the delivery callback has observed at least one
message of any topic — either before the wait started
(`message_received` already set) or during the wait window (a nonempty
arrival list) — and `False` (returning control to the caller) only when
no message at all has ever been observed within the timeout. -/
theorem C2_wait_for_message_topic_blind (c : MQTTClient)
    (arrivals : List (String × String × Int)) :
    (c.wait_for_message arrivals).2
      = (c.message_received || !arrivals.isEmpty) :=
  wait_for_message_spec c arrivals

/-- A session that completed `_on_connect` with result code 0 but has
not (yet) received a successful suback: `connected` is set,
`subscribed` is not. -/
def connectedUnsubscribed : MQTTClient := MQTTClient.init.on_connect 0 0

/-- C8 counterexample: from a connected but not-subscribed session,
`publish` still hands the payload to the transport (a send is issued)
and can return `True` — refuting the stated property that publish
refuses without sending whenever the subscription has not succeeded. -/
theorem C8_counterexample :
    connectedUnsubscribed.connected = true
    ∧ connectedUnsubscribed.subscribed = false
    ∧ connectedUnsubscribed.publish 0 = (true, true) := by decide

/-- C8 amended: `publish` gates only on `connected`: when the session is
not connected it refuses (returns `False`) without sending; when the
session is connected — subscribed or not — it issues the send, and the
return value is `True` exactly when the transport accepts the send
locally (result code `MQTT_ERR_SUCCESS`, i.e. 0). -/
theorem C8_publish_checks_connected_only (c d : MQTTClient) (rc rc2 : Nat)
    (hc : c.connected = false) (hd : d.connected = true) :
    c.publish rc = (false, false)
    ∧ (d.publish rc2).1 = true
    ∧ ((d.publish rc2).2 = true ↔ rc2 = 0) := by
  refine ⟨?_, ?_, ?_⟩ <;> simp [MQTTClient.publish, hc, hd]

/-- C8 witness: the amended publish contract instantiated at the
initial (never-connected) session and at a connected-but-unsubscribed
session with transport code 5. -/
theorem C8_publish_checks_connected_only_witness :
    MQTTClient.init.publish 3 = (false, false)
    ∧ (connectedUnsubscribed.publish 5).1 = true
    ∧ ((connectedUnsubscribed.publish 5).2 = true ↔ 5 = 0) :=
  C8_publish_checks_connected_only MQTTClient.init connectedUnsubscribed 3 5
    (by decide) (by decide)

/-- C9 counterexample: two invocations with the same subject, the same
current time and the same signing key, differing only in the
freshly-drawn device UUID of `load_test.py:78`, produce different
tokens — refuting purity in `(subject, currentTime, key)` alone. -/
theorem C9_counterexample :
    create_jwt_token ("alice") 0 ("device-a") ("key") ≠
      create_jwt_token ("alice") 0 ("device-b") ("key") := by decide

/-- C9 amended: token issuance is a pure function of the four inputs
`(subject, currentTime, device, key)`: two tokens are equal exactly
when all four inputs coincide.  Because `create_jwt_token` draws a
fresh `uuid4` device per call, equal `(subject, currentTime, key)`
alone do not make the tokens identical. -/
theorem C9_token_function_of_inputs (s s2 : String) (t t2 : Int)
    (d d2 k k2 : String) :
    create_jwt_token s t d k = create_jwt_token s2 t2 d2 k2 ↔
      s = s2 ∧ t = t2 ∧ d = d2 ∧ k = k2 := by
  simp only [create_jwt_token, JwtToken.mk.injEq, JwtPayload.mk.injEq,
    true_and]
  constructor
  · rintro ⟨⟨h1, h2, h3⟩, h4⟩
    exact ⟨h1, by omega, h3, h4⟩
  · rintro ⟨h1, h2, h3, h4⟩
    exact ⟨⟨h1, by omega, h3⟩, h4⟩

/-- C3 counterexample: when the MQTT disconnect step raises, `on_stop`
itself raises and neither the ACL-entry delete nor the Redis close is
ever reached — refuting the stated property that every teardown step
runs and every step failure is swallowed. -/
theorem C3_counterexample :
    (on_stop true true true ⟨true, false, false⟩).raised = true
    ∧ (on_stop true true true ⟨true, false, false⟩).deleteRan = false
    ∧ (on_stop true true true ⟨true, false, false⟩).closeRan = false := by
  decide

/-- C3 amended: only the ACL-delete step of `on_stop` is guarded by
`try/except`.  With client and Redis handles present: if the disconnect
step raises, `on_stop` raises and the delete and close steps never run;
otherwise all three steps run, a delete failure is swallowed (the
outcome never depends on `deleteRaises`), and `on_stop` raises exactly
when the unguarded Redis close raises. -/
theorem C3_on_stop_guards_only_delete (f : TeardownFaults) :
    on_stop true true true f =
      if f.disconnectRaises then
        { disconnectRan := true, deleteRan := false, closeRan := false
        , raised := true }
      else
        { disconnectRan := true, deleteRan := true, closeRan := true
        , raised := f.closeRaises } := by
  obtain ⟨d, del, cl⟩ := f
  cases d <;> cases del <;> cases cl <;> decide

/-- C4 counterexample: result code 139 lies in the range 128..159 yet
has no entry in the fixed label table; `_on_connect` maps it to the
generic message carrying the raw code — refuting the stated property
that every code in 128..159 maps to one of the fixed category
labels. -/
theorem C4_counterexample :
    (128 ≤ 139 ∧ 139 ≤ 159)
    ∧ error_messages 139 = none
    ∧ (MQTTClient.init.on_connect 139 0).connection_error =
        some ("Connection refused - error code 139") := by decide

/-- C4 amended: classification is a pure total function of the result
code.  Code 0 yields success (`connected = true`, error untouched, raw
code recorded); every code present in the literal table (1–5 and 21 of
the 32 codes in 128..159, namely 128–138, 140, 144, 149, 151, 153–157
and 159) maps to its fixed human-readable label; every code outside
the table — including 139, 141–143, 145–148, 150, 152 and 158 from
inside 128..159 — maps to the generic message carrying the raw
numeric code. -/
theorem C4_on_connect_classification (c : MQTTClient) (now : Int)
    (rc : Nat) (hmem : rc ∈ labelledCodes)
    (rc2 : Nat) (hnot : rc2 ∉ labelledCodes) (h0 : rc2 ≠ 0) :
    (c.on_connect 0 now).connected = true
    ∧ (c.on_connect 0 now).connection_error = c.connection_error
    ∧ (c.on_connect 0 now).connection_result_code = some 0
    ∧ (c.on_connect rc now).connected = false
    ∧ (∃ lbl, error_messages rc = some lbl
        ∧ (c.on_connect rc now).connection_error = some lbl)
    ∧ (c.on_connect rc2 now).connection_error =
        some ("Connection refused - error code " ++ toString rc2)
    ∧ (c.on_connect rc2 now).connection_result_code = some rc2 := by
  have hrc0 : rc ≠ 0 := by
    intro h
    subst h
    exact absurd hmem (by decide)
  have hsome : (error_table.find? (fun p => p.1 == rc)).isSome := by
    obtain ⟨pr, hpr, hfst⟩ := List.mem_map.mp hmem
    exact List.find?_isSome.mpr ⟨pr, hpr, by simp [hfst]⟩
  obtain ⟨entry, hentry⟩ := Option.isSome_iff_exists.mp hsome
  have herr : error_messages rc = some entry.2 := by
    simp [error_messages, hentry]
  have hnone : error_messages rc2 = none := by
    have hfind : error_table.find? (fun p => p.1 == rc2) = none := by
      rw [List.find?_eq_none]
      intro x hx
      simp only [beq_iff_eq]
      intro hEq
      exact hnot (List.mem_map.mpr ⟨x, hx, hEq⟩)
    simp [error_messages, hfind]
  refine ⟨?_, ?_, ?_, ?_, ⟨entry.2, herr, ?_⟩, ?_, ?_⟩
  · simp [MQTTClient.on_connect]
  · simp [MQTTClient.on_connect]
  · simp [MQTTClient.on_connect]
  · simp [MQTTClient.on_connect, hrc0]
  · simp [MQTTClient.on_connect, hrc0, herr]
  · simp [MQTTClient.on_connect, h0, hnone]
  · simp [MQTTClient.on_connect, h0]

/-- C4 witness: the classification contract instantiated at the
initial session with tabled code 151 (quota exceeded) and untabled
code 139. -/
theorem C4_on_connect_classification_witness :
    ((151 ∈ labelledCodes) ∧ (139 ∉ labelledCodes) ∧ 139 ≠ 0)
    ∧ ((MQTTClient.init.on_connect 0 0).connected = true
      ∧ (MQTTClient.init.on_connect 0 0).connection_error =
          MQTTClient.init.connection_error
      ∧ (MQTTClient.init.on_connect 0 0).connection_result_code = some 0
      ∧ (MQTTClient.init.on_connect 151 0).connected = false
      ∧ (∃ lbl, error_messages 151 = some lbl
          ∧ (MQTTClient.init.on_connect 151 0).connection_error = some lbl)
      ∧ (MQTTClient.init.on_connect 139 0).connection_error =
          some ("Connection refused - error code " ++ toString 139)
      ∧ (MQTTClient.init.on_connect 139 0).connection_result_code =
          some 139) :=
  ⟨by decide,
    C4_on_connect_classification MQTTClient.init 0 151 (by decide) 139
      (by decide) (by decide)⟩

/-- C5 counterexample: a registration-authentication request whose JSON
body is missing the password field makes `do_POST` raise an uncaught
`KeyError` instead of answering the denial body — refuting the stated
property that a missing field yields the not_allowed response. -/
theorem C5_counterexample :
    do_POST ("auth_on_register_m5") [(("username"), JVal.val ("u"))] =
      PostResult.keyError ("password")
    ∧ do_POST ("auth_on_register_m5") [(("username"), JVal.val ("u"))] ≠
      PostResult.notAllowed := by decide

/-- C5 amended: for the `auth_on_register_m5` hook, when both fields
are present the handler denies exactly when username or password is
JSON null and allows exactly when both are non-null; a body missing
the password field raises `KeyError` on `data['password']` (no response
is written), and a body with a password but no username field raises
`KeyError` on `data['username']`. -/
theorem C5_null_denied_missing_field_raises (data d2 d3 : List (String × JVal))
    (hp : jsonGet data ("password") ≠ none)
    (hu : jsonGet data ("username") ≠ none)
    (h2 : jsonGet d2 ("password") = none)
    (h3p : jsonGet d3 ("password") ≠ none)
    (h3u : jsonGet d3 ("username") = none) :
    (do_POST ("auth_on_register_m5") data = PostResult.notAllowed ↔
      (jsonGet data ("username") = some JVal.null
        ∨ jsonGet data ("password") = some JVal.null))
    ∧ (do_POST ("auth_on_register_m5") data = PostResult.ok ↔
      (jsonGet data ("username") ≠ some JVal.null
        ∧ jsonGet data ("password") ≠ some JVal.null))
    ∧ do_POST ("auth_on_register_m5") d2 = PostResult.keyError ("password")
    ∧ do_POST ("auth_on_register_m5") d3 = PostResult.keyError ("username") := by
  obtain ⟨pw, hpw⟩ := Option.ne_none_iff_exists'.mp hp
  obtain ⟨un, hun⟩ := Option.ne_none_iff_exists'.mp hu
  obtain ⟨pw3, hpw3⟩ := Option.ne_none_iff_exists'.mp h3p
  have hmain : do_POST ("auth_on_register_m5") data =
      if un = JVal.null ∨ pw = JVal.null then PostResult.notAllowed
      else PostResult.ok := by
    simp [do_POST, hpw, hun]
  refine ⟨?_, ?_, ?_, ?_⟩
  · rw [hmain, hun, hpw]
    split_ifs with h <;> simp [h]
  · rw [hmain, hun, hpw]
    split_ifs with h <;> simp [h]
    · tauto
    · tauto
  · simp [do_POST, h2]
  · simp [do_POST, hpw3, h3u]

/-- C5 witness: the amended webhook contract instantiated at a body
with a null username, the empty body, and a body carrying only a
password. -/
theorem C5_null_denied_missing_field_raises_witness :
    (do_POST ("auth_on_register_m5")
        [(("password"), JVal.val ("p")), (("username"), JVal.null)] =
        PostResult.notAllowed ↔
      (jsonGet [(("password"), JVal.val ("p")), (("username"), JVal.null)]
          ("username") = some JVal.null
        ∨ jsonGet [(("password"), JVal.val ("p")), (("username"), JVal.null)]
          ("password") = some JVal.null))
    ∧ (do_POST ("auth_on_register_m5")
        [(("password"), JVal.val ("p")), (("username"), JVal.null)] =
        PostResult.ok ↔
      (jsonGet [(("password"), JVal.val ("p")), (("username"), JVal.null)]
          ("username") ≠ some JVal.null
        ∧ jsonGet [(("password"), JVal.val ("p")), (("username"), JVal.null)]
          ("password") ≠ some JVal.null))
    ∧ do_POST ("auth_on_register_m5") [] = PostResult.keyError ("password")
    ∧ do_POST ("auth_on_register_m5") [(("password"), JVal.val ("p"))] =
        PostResult.keyError ("username") :=
  C5_null_denied_missing_field_raises
    [(("password"), JVal.val ("p")), (("username"), JVal.null)]
    [] [(("password"), JVal.val ("p"))]
    (by decide) (by decide) (by decide) (by decide) (by decide)

/-- The session state during a second task iteration: the first publish
was acknowledged at time 1, the first (and only) receipt was observed
at time 1, and the second publish is acknowledged at time 2.  The
retained `receive_time` now precedes `publish_time`. -/
def secondIterationClient : MQTTClient :=
  (((startedUser 0 0).client.on_publish 1).on_message ("t") ("hello") 1).on_publish 2

/-- C7 counterexample: in the second iteration the latency computation
subtracts the fresh publish timestamp from the stale first-receipt
timestamp and reports a negative latency — refuting the stated
property that the measured latency is nonnegative in every case. -/
theorem C7_counterexample :
    secondIterationClient.publish_time = some 2
    ∧ secondIterationClient.receive_time = some 1
    ∧ computeLatency secondIterationClient.publish_time
        secondIterationClient.receive_time 2 3 = -1000
    ∧ computeLatency secondIterationClient.publish_time
        secondIterationClient.receive_time 2 3 < 0 := by decide

/-- C7 amended: when both timestamps are set (and truthy) the reported
latency is exactly the delta `(receive_time - publish_time) * 1000`,
which is nonnegative only when the receipt timestamp does not precede
the publish timestamp; when either timestamp is unavailable the
computation falls back to wall-clock time since the call started,
which is nonnegative whenever the clock does not run backwards. -/
theorem C7_latency_delta_or_fallback (pt rt : Option Int) (st now p r : Int)
    (hst : st ≤ now) (hp : p ≠ 0) (hr : r ≠ 0) (hpr : p ≤ r)
    (hfall : timeTruthy pt = false ∨ timeTruthy rt = false) :
    computeLatency (some p) (some r) st now = (r - p) * 1000
    ∧ 0 ≤ computeLatency (some p) (some r) st now
    ∧ computeLatency pt rt st now = (now - st) * 1000
    ∧ 0 ≤ computeLatency pt rt st now := by
  have h1 : computeLatency (some p) (some r) st now = (r - p) * 1000 := by
    simp [computeLatency, timeTruthy, hp, hr]
  have h2 : computeLatency pt rt st now = (now - st) * 1000 := by
    rcases hfall with h | h <;> simp [computeLatency, h]
  refine ⟨h1, ?_, h2, ?_⟩
  · rw [h1]
    omega
  · rw [h2]
    omega

/-- C7 witness: the latency contract instantiated at a first-iteration
shape: publish acknowledged at 1, receipt at 2, wall clock from 0
to 3, and unavailable timestamps for the fallback branch. -/
theorem C7_latency_delta_or_fallback_witness :
    computeLatency (some 1) (some 2) 0 3 = (2 - 1) * 1000
    ∧ 0 ≤ computeLatency (some 1) (some 2) 0 3
    ∧ computeLatency none none 0 3 = (3 - 0) * 1000
    ∧ 0 ≤ computeLatency none none 0 3 :=
  C7_latency_delta_or_fallback none none 0 3 1 2 (by decide) (by decide)
    (by decide) (by decide) (Or.inl (by decide))

theorem runTask_messages_sent (N k : Nat) :
    ∀ (envOf : Nat → IterEnv) (s : UserState),
    (∀ i, (envOf i).transport_rc = 0 ∧ (envOf i).arrivals ≠ []) →
    s.client.connected = true → s.messages_sent ≤ N →
    (runTask N envOf k s).messages_sent = min (s.messages_sent + k) N := by
  induction k with
  | zero =>
      intro envOf s _ _ hle
      simp only [runTask]
      omega
  | succ k ih =>
      intro envOf s hgood hc hle
      by_cases hstop : s.messages_sent ≥ N
      · simp [runTask, publish_and_receive, hstop]
        omega
      · obtain ⟨htr, har⟩ := hgood 0
        have hpub : (s.client.publish (envOf 0).transport_rc).2 = true := by
          simp [MQTTClient.publish, hc, htr]
        have hrecv : (s.client.wait_for_message (envOf 0).arrivals).2 = true := by
          rw [wait_for_message_spec]
          simp [har]
        have hconn2 :
            ((s.client.wait_for_message (envOf 0).arrivals).1).connected = true := by
          rw [wait_for_message_fst_connected]
          exact hc
        have step : (runTask N (fun i => envOf (i + 1)) k
            { s with
                client := (s.client.wait_for_message (envOf 0).arrivals).1,
                messages_sent := s.messages_sent + 1,
                events := s.events ++
                  [⟨"4. PUBLISH", true⟩, ⟨"5. RECEIVE", true⟩] }).messages_sent
            = min (s.messages_sent + 1 + k) N := by
          simpa using ih (fun i => envOf (i + 1))
            { s with
                client := (s.client.wait_for_message (envOf 0).arrivals).1,
                messages_sent := s.messages_sent + 1,
                events := s.events ++
                  [⟨"4. PUBLISH", true⟩, ⟨"5. RECEIVE", true⟩] }
            (fun i => hgood (i + 1)) hconn2 (by simp; omega)
        have hstopped : (publish_and_receive N s (envOf 0)).stopped = false := by
          simp [publish_and_receive, hstop, hpub, hrecv]
        have hstate : (publish_and_receive N s (envOf 0)).state =
            { s with
                client := (s.client.wait_for_message (envOf 0).arrivals).1,
                messages_sent := s.messages_sent + 1,
                events := s.events ++
                  [⟨"4. PUBLISH", true⟩, ⟨"5. RECEIVE", true⟩] } := by
          simp [publish_and_receive, hstop, hpub, hrecv]
        simp only [runTask, hstopped, if_neg (by simp : ¬ false = true), hstate]
        rw [step]
        omega

/-- C1: the per-client message counter never exceeds the configured
quota; a run from a fresh successfully-started user in which every
iteration's publish and receipt succeed completes exactly
`min k N` iterations after `k` task invocations (so exactly `N` once
`k ≥ N`); and as soon as the counter has reached the quota the task
raises `StopUser` before issuing any publish, leaving the state — in
particular the event stream — untouched, so no error is recorded. -/
theorem C1_message_quota (N k : Nat) (tConn tSub : Int) (envOf : Nat → IterEnv)
    (hgood : ∀ i, (envOf i).transport_rc = 0 ∧ (envOf i).arrivals ≠ [])
    (s : UserState) (env : IterEnv) (hs : s.messages_sent ≤ N)
    (s2 : UserState) (env2 : IterEnv) (hs2 : N ≤ s2.messages_sent) :
    (publish_and_receive N s env).state.messages_sent ≤ N
    ∧ (runTask N envOf k (startedUser tConn tSub)).messages_sent = min k N
    ∧ publish_and_receive N s2 env2 =
        { state := s2, stopped := true, publishAttempted := false } := by
  have hc : (startedUser tConn tSub).client.connected = true := by
    simp [startedUser, MQTTClient.init, MQTTClient.on_connect,
      MQTTClient.on_subscribe]
  refine ⟨?_, ?_, ?_⟩
  · unfold publish_and_receive
    split_ifs <;> simp <;> omega
  · have := runTask_messages_sent N k envOf (startedUser tConn tSub) hgood hc
      (by simp [startedUser])
    simpa [startedUser] using this
  · simp [publish_and_receive, hs2]

/-- C1 witness: the quota contract instantiated with quota 2, five
all-successful task invocations from a fresh started user, and a user
that already reached the quota. -/
theorem C1_message_quota_witness :
    (publish_and_receive 2 (startedUser 0 0) ⟨0, [(("t"), ("p"), 1)]⟩).state.messages_sent ≤ 2
    ∧ (runTask 2 (fun _ => ⟨0, [(("t"), ("p"), 1)]⟩) 5 (startedUser 0 0)).messages_sent = min 5 2
    ∧ publish_and_receive 2
        { messages_sent := 2, client := MQTTClient.init, events := [] }
        ⟨0, []⟩ =
        { state := { messages_sent := 2, client := MQTTClient.init, events := [] }
        , stopped := true, publishAttempted := false } :=
  C1_message_quota 2 5 0 0 (fun _ => ⟨0, [(("t"), ("p"), 1)]⟩)
    (by intro i; exact ⟨rfl, by simp⟩) (startedUser 0 0) ⟨0, [(("t"), ("p"), 1)]⟩
    (by decide)
    { messages_sent := 2, client := MQTTClient.init, events := [] }
    ⟨0, []⟩ (by decide)

/-- A user whose session never connected (the `Failed`/disconnected
session state): `publish` refuses on it, so every iteration fails. -/
def failedSessionUser : UserState :=
  { messages_sent := 0, client := MQTTClient.init, events := [] }

/-- C6 counterexample: with the underlying session in its
failed/disconnected state, an iteration fails and records a failed
publish event, yet the task does not stop the user (no `StopUser` is
raised) — refuting the stated property that a failed session makes the
loop stop and proceed to cleanup. -/
theorem C6_counterexample :
    failedSessionUser.client.connected = false
    ∧ (publish_and_receive 20 failedSessionUser ⟨0, []⟩).stopped = false
    ∧ (publish_and_receive 20 failedSessionUser ⟨0, []⟩).state.events =
        [⟨"4. PUBLISH", false⟩] := by decide

/-- C6 amended: below the quota, a failed publish appends a failed
"4. PUBLISH" event and a passed publish with a failed receipt appends a
failed "5. RECEIVE" event; in both cases the counter is unchanged and
the user is not stopped — regardless of the session state, including
the disconnected/failed one.  The loop stops only through the quota
check. -/
theorem C6_iteration_failure_not_fatal (N : Nat) (s : UserState)
    (env : IterEnv) (h : s.messages_sent < N)
    (hpub : (s.client.publish env.transport_rc).2 = false)
    (s2 : UserState) (env2 : IterEnv) (h2 : s2.messages_sent < N)
    (hpub2 : (s2.client.publish env2.transport_rc).2 = true)
    (hrecv2 : (s2.client.wait_for_message env2.arrivals).2 = false) :
    (publish_and_receive N s env).stopped = false
    ∧ (publish_and_receive N s env).state.events =
        s.events ++ [⟨"4. PUBLISH", false⟩]
    ∧ (publish_and_receive N s env).state.messages_sent = s.messages_sent
    ∧ (publish_and_receive N s2 env2).stopped = false
    ∧ (publish_and_receive N s2 env2).state.events =
        s2.events ++ [⟨"4. PUBLISH", true⟩, ⟨"5. RECEIVE", false⟩]
    ∧ (publish_and_receive N s2 env2).state.messages_sent =
        s2.messages_sent := by
  have hn : ¬ (s.messages_sent ≥ N) := by omega
  have hn2 : ¬ (s2.messages_sent ≥ N) := by omega
  refine ⟨?_, ?_, ?_, ?_, ?_, ?_⟩ <;>
    simp [publish_and_receive, hn, hn2, hpub, hpub2, hrecv2]

/-- C6 witness: the non-fatal-failure contract instantiated at the
failed-session user (publish refused) and at a fresh started user
whose receipt times out (no arrival within the window). -/
theorem C6_iteration_failure_not_fatal_witness :
    (publish_and_receive 20 failedSessionUser ⟨0, []⟩).stopped = false
    ∧ (publish_and_receive 20 failedSessionUser ⟨0, []⟩).state.events =
        failedSessionUser.events ++ [⟨"4. PUBLISH", false⟩]
    ∧ (publish_and_receive 20 failedSessionUser ⟨0, []⟩).state.messages_sent =
        failedSessionUser.messages_sent
    ∧ (publish_and_receive 20 (startedUser 0 0) ⟨0, []⟩).stopped = false
    ∧ (publish_and_receive 20 (startedUser 0 0) ⟨0, []⟩).state.events =
        (startedUser 0 0).events ++
          [⟨"4. PUBLISH", true⟩, ⟨"5. RECEIVE", false⟩]
    ∧ (publish_and_receive 20 (startedUser 0 0) ⟨0, []⟩).state.messages_sent =
        (startedUser 0 0).messages_sent :=
  C6_iteration_failure_not_fatal 20 failedSessionUser ⟨0, []⟩ (by decide)
    (by decide) (startedUser 0 0) ⟨0, []⟩ (by decide) (by decide) (by decide)

theorem applyEvent_preserves_receipt (c : MQTTClient) (e : CbEvent)
    (h : c.message_received = true) :
    (c.applyEvent e).message_received = true
    ∧ (c.applyEvent e).receive_time = c.receive_time := by
  cases e with
  | conn rc now =>
      by_cases h0 : rc = 0 <;>
        simp [MQTTClient.applyEvent, MQTTClient.on_connect, h0, h]
  | sub g now =>
      by_cases hg : 128 ∈ g <;>
        simp [MQTTClient.applyEvent, MQTTClient.on_subscribe, hg, h]
  | msg t p now => simp [MQTTClient.applyEvent, MQTTClient.on_message, h]
  | pub now => simp [MQTTClient.applyEvent, MQTTClient.on_publish, h]

theorem applyEvents_preserves_receipt (c : MQTTClient) (evts : List CbEvent)
    (h : c.message_received = true) :
    (c.applyEvents evts).message_received = true
    ∧ (c.applyEvents evts).receive_time = c.receive_time := by
  induction evts generalizing c with
  | nil => exact ⟨h, rfl⟩
  | cons e rest ih =>
      obtain ⟨h1, h2⟩ := applyEvent_preserves_receipt c e h
      obtain ⟨h3, h4⟩ := ih (c.applyEvent e) h1
      constructor
      · simpa [MQTTClient.applyEvents, List.foldl_cons] using h3
      · have : (MQTTClient.applyEvents c (e :: rest)).receive_time =
            (MQTTClient.applyEvents (c.applyEvent e) rest).receive_time := by
          simp [MQTTClient.applyEvents, List.foldl_cons]
        rw [this, h4, h2]

/-- C10: once the first message has been delivered, `message_received`
and `receive_time` survive every later callback of the session —
nothing ever resets them — so a later `wait_for_message` returns `True`
immediately (even with no new arrival), and every later latency
computation still sees the first receipt's timestamp; dually, on a
session that has not yet received anything, the first delivered message
sets the flag and stamps `receive_time` with its own timestamp. -/
theorem C10_first_receipt_sticky (c c2 : MQTTClient) (evts : List CbEvent)
    (arrivals : List (String × String × Int)) (t p : String) (now : Int)
    (h : c.message_received = true) (h2 : c2.message_received = false) :
    (c.applyEvents evts).message_received = true
    ∧ (c.applyEvents evts).receive_time = c.receive_time
    ∧ (c.wait_for_message arrivals).2 = true
    ∧ (c2.on_message t p now).message_received = true
    ∧ (c2.on_message t p now).receive_time = some now := by
  obtain ⟨h1, hrt⟩ := applyEvents_preserves_receipt c evts h
  refine ⟨h1, hrt, ?_, on_message_message_received c2 t p now, ?_⟩
  · rw [wait_for_message_spec, h]
    simp
  · simp [MQTTClient.on_message, h2]

/-- C10 witness: the stickiness contract instantiated at a session that
received its first message at time 1, then saw a publish ack at 5 and
a second delivery at 6, against a fresh session receiving its first
message at time 9. -/
theorem C10_first_receipt_sticky_witness :
    ((MQTTClient.init.on_message ("a") ("b") 1).applyEvents
        [CbEvent.pub 5, CbEvent.msg ("a") ("c") 6]).message_received = true
    ∧ ((MQTTClient.init.on_message ("a") ("b") 1).applyEvents
        [CbEvent.pub 5, CbEvent.msg ("a") ("c") 6]).receive_time =
        (MQTTClient.init.on_message ("a") ("b") 1).receive_time
    ∧ ((MQTTClient.init.on_message ("a") ("b") 1).wait_for_message []).2 = true
    ∧ (MQTTClient.init.on_message ("x") ("y") 9).message_received = true
    ∧ (MQTTClient.init.on_message ("x") ("y") 9).receive_time = some 9 :=
  C10_first_receipt_sticky (MQTTClient.init.on_message ("a") ("b") 1)
    MQTTClient.init [CbEvent.pub 5, CbEvent.msg ("a") ("c") 6] []
    ("x") ("y") 9 (by decide) (by decide)

end EmqxAuth
